import Mathlib

/-!
Shallow embedding of the synchronous-over-asynchronous trading bridge in
`src/market/market.py` (class `Market`).

The Python code correlates blocking caller threads with an asynchronous
event-delivery thread through per-request single-slot queues
(`queue.Queue(maxsize=1)`) stored in shared dictionaries on a `MarketData`
object.  We embed:

* a Python dictionary as a per-key map `String → Option α` (`Dict α`);
* a `queue.Queue(maxsize=1)` as `Slot α := Option α` (`none` = empty);
* each `Market` method as a pure state transformer over `MarketData`,
  split at its blocking points, together with the list of externally
  visible actions (dictionary slot creation, signal emissions, blocking
  reads) it performs, in source order.

All times are integer seconds.  The streaming timestamps compared by the
staleness check in `get_price_info` / `get_ask_bid_info` are datetimes
normalized to 1900-01-01, i.e. pure times-of-day; we embed them as the
corresponding number of seconds.
-/

namespace Kiwoom

/-- A single-slot blocking queue, `queue.Queue(maxsize=1)`:
`none` means the slot is empty (a consumer `get` would block),
`some v` means one value has been deposited. -/
abbrev Slot (α : Type) : Type := Option α

/-- A Python dictionary with string keys, viewed through per-key lookup. -/
def Dict (α : Type) : Type := String → Option α

/-- The empty dictionary. -/
def Dict.empty {α : Type} : Dict α := fun _ => none

/-- `d[k] = v` — dictionary assignment (overwrites any existing entry). -/
def Dict.set {α : Type} (d : Dict α) (k : String) (v : α) : Dict α :=
  fun k' => if k' = k then some v else d k'

/-- `del d[k]` — dictionary deletion. -/
def Dict.del {α : Type} (d : Dict α) (k : String) : Dict α :=
  fun k' => if k' = k then none else d k'

/-- A value deposited into `MarketData.request_name_to_tr_data`: the
deposit amount for a `GetDeposit` request, or the order number string for
a `RequestOrder` request. -/
inductive TrData where
  | depositV (v : Int)
  | orderNumberV (s : String)
deriving DecidableEq

/-- The `order_dict` argument of `Market.request_order`:
`'구분'` (buy/sell), `'주식코드'`, `'수량'`, `'가격'`, `'시장가'`. -/
structure OrderDict where
  side : String
  stock_code : String
  quantity : Int
  price : Int
  is_market : Bool
deriving DecidableEq

/-- An order record stored in `order_number_to_info` (a `Dict[str, str]`
in the source), embedded as a list of key/value pairs. -/
abbrev OrderInfo : Type := List (String × String)

/-- A streaming price entry of `MarketData.price_info`:
`'체결시간'` (event time, seconds of day), `'현재가'`, `'시가'`, `'고가'`, `'저가'`. -/
structure PriceInfo where
  time : Int
  price : Int
  openPrice : Int
  high : Int
  low : Int
deriving DecidableEq

/-- A streaming quote entry of `MarketData.ask_bid_info`:
`'호가시간'` (event time, seconds of day), bid levels and ask levels as
(price, size) pairs. -/
structure AskBidInfo where
  time : Int
  bids : List (Int × Int)
  asks : List (Int × Int)
deriving DecidableEq

/-- The request signals `Market` emits through its `ClientSignalHandler`
(`self._sig.*_signal.emit(...)` calls in the source). -/
inductive Signal where
  | loginRequest
  | accountNumberRequest
  | balanceRequest (request_name : String)
  | conditionRequest
  | conditionSearchRequest (condition_name : String) (condition_index : Int)
  | depositRequest (request_name : String)
  | orderRequest (order : OrderDict) (request_name : String)
  | priceRegisterRequest (stock_code_list : List String) (is_add : Bool)
  | askBidRegisterRequest (stock_code_list : List String) (is_add : Bool)
deriving DecidableEq

/-- Externally visible actions a `Market` method performs, in source
order: emitting a request signal, creating / blocking-reading / deleting
a single-slot queue in one of the two correlation dictionaries, and the
blocking read of the login-result queue. -/
inductive Action where
  | emit (s : Signal)
  | insertTrSlot (key : String)
  | trSlotGet (key : String)
  | deleteTrSlot (key : String)
  | insertCondSlot (key : String)
  | condSlotGet (key : String)
  | deleteCondSlot (key : String)
  | loginResultGet (result : Int)
deriving DecidableEq

/-- The shared mutable state `MarketData` as used by `market.py`:
`login_result` (a blocking queue of login result codes, embedded as the
list of values the event thread will put, in order),
`request_name_to_tr_data` and `condition_name_to_result` (the two
correlation dictionaries of single-slot queues), and the event-thread
populated stores `order_number_to_info`, `price_info`, `ask_bid_info`. -/
structure MarketData where
  login_result : List Int
  request_name_to_tr_data : Dict (Slot TrData)
  condition_name_to_result : Dict (Slot (List String))
  order_number_to_info : Dict OrderInfo
  price_info : Dict PriceInfo
  ask_bid_info : Dict AskBidInfo

/-- Modelled from the spec: `KiwoomAPIUtils.create_request_name`
(its source file is not among the analyzed sources) builds a request
token from the operation name plus a disambiguator, unique per call. -/
def create_request_name (operation : String) (disambiguator : Nat) : String :=
  operation ++ "-" ++ toString disambiguator

/-- Outcome of a blocking consume of a correlation-table entry.
`invalidToken` is the KeyError the dictionary lookup raises when the
token is absent (the spec's `InvalidToken`); `blocked` means the slot
exists but is still empty, so `queue.get()` suspends the caller. -/
inductive AwaitOutcome (α : Type) where
  | invalidToken
  | blocked
  | value (v : α)
deriving DecidableEq

/-- Lines 117–119 of `Market.get_deposit`: insert a fresh empty
single-slot queue under the token, then emit the deposit request. -/
def get_deposit_request (st : MarketData) (request_name : String) : MarketData :=
  { st with request_name_to_tr_data :=
      st.request_name_to_tr_data.set request_name (none : Slot TrData) }

/-- The action trace of lines 117–119 of `Market.get_deposit`, in source
order: slot creation, then signal emission. -/
def get_deposit_request_trace (request_name : String) : List Action :=
  [Action.insertTrSlot request_name, Action.emit (Signal.depositRequest request_name)]

/-- Lines 120–122 of `Market.get_deposit` and lines 172–174 of
`Market.request_order` (identical pattern): look the token up in
`request_name_to_tr_data` (KeyError if absent), block on `queue.get()`,
and on success `del` the entry and return the value.  This is the
outcome; `tr_await_st` is the corresponding post-state. -/
def tr_await_out (st : MarketData) (request_name : String) : AwaitOutcome TrData :=
  match st.request_name_to_tr_data request_name with
  | none => AwaitOutcome.invalidToken
  | some none => AwaitOutcome.blocked
  | some (some v) => AwaitOutcome.value v

/-- Post-state of the consume step embedded by `tr_await_out`: on a
successful read the entry is deleted (`del` on line 121 / 173);
otherwise the state is unchanged. -/
def tr_await_st (st : MarketData) (request_name : String) : MarketData :=
  match st.request_name_to_tr_data request_name with
  | some (some _) =>
      { st with request_name_to_tr_data := st.request_name_to_tr_data.del request_name }
  | _ => st

/-- Modelled from the spec: the event-delivery thread's
`deliver(token, value)` for correlated TR responses (the event-handler
source is not among the analyzed sources).  It deposits the value into
the single-slot queue if the token exists and the slot is empty; an
unknown-token delivery is dropped (logged, not fatal); a second delivery
into a full slot would block the producer and is modelled as a no-op. -/
def deliver (st : MarketData) (request_name : String) (v : TrData) : MarketData :=
  match st.request_name_to_tr_data request_name with
  | some none =>
      { st with request_name_to_tr_data :=
          st.request_name_to_tr_data.set request_name (some v) }
  | some (some _) => st
  | none => st

/-- Lines 100–101 of `Market.get_matching_stocks`: unconditionally
assign a fresh empty single-slot queue under the condition name, then
emit the search request. -/
def get_matching_stocks_request (st : MarketData) (condition_name : String) : MarketData :=
  { st with condition_name_to_result :=
      st.condition_name_to_result.set condition_name (none : Slot (List String)) }

/-- The action trace of lines 100–101 of `Market.get_matching_stocks`,
in source order: slot creation, then signal emission. -/
def get_matching_stocks_request_trace (condition_name : String) (condition_index : Int) :
    List Action :=
  [Action.insertCondSlot condition_name,
   Action.emit (Signal.conditionSearchRequest condition_name condition_index)]

/-- Lines 102–104 of `Market.get_matching_stocks`: look the condition
name up in `condition_name_to_result` (KeyError if absent), block on
`queue.get()`, and on success `del` the entry and return the list. -/
def cond_await_out (st : MarketData) (condition_name : String) : AwaitOutcome (List String) :=
  match st.condition_name_to_result condition_name with
  | none => AwaitOutcome.invalidToken
  | some none => AwaitOutcome.blocked
  | some (some v) => AwaitOutcome.value v

/-- Post-state of the consume step embedded by `cond_await_out`. -/
def cond_await_st (st : MarketData) (condition_name : String) : MarketData :=
  match st.condition_name_to_result condition_name with
  | some (some _) =>
      { st with condition_name_to_result := st.condition_name_to_result.del condition_name }
  | _ => st

/-- Modelled from the spec: the event-delivery thread's delivery of a
condition-search result into `condition_name_to_result` (the
event-handler source is not among the analyzed sources), with the same
contract as `deliver`. -/
def cond_deliver (st : MarketData) (condition_name : String) (v : List String) : MarketData :=
  match st.condition_name_to_result condition_name with
  | some none =>
      { st with condition_name_to_result :=
          st.condition_name_to_result.set condition_name (some v) }
  | some (some _) => st
  | none => st

/-- Lines 169–171 of `Market.request_order`: insert a fresh empty
single-slot queue under the token, then emit the order request carrying
the order dictionary unchanged — the source performs no validation of
`order_dict` (in particular none of the market-order/price rule). -/
def request_order_request (st : MarketData) (order_dict : OrderDict) (request_name : String) :
    MarketData :=
  { st with request_name_to_tr_data :=
      st.request_name_to_tr_data.set request_name (none : Slot TrData) }

/-- The action trace of lines 169–171 of `Market.request_order`, in
source order: slot creation, then signal emission. -/
def request_order_request_trace (order_dict : OrderDict) (request_name : String) :
    List Action :=
  [Action.insertTrSlot request_name,
   Action.emit (Signal.orderRequest order_dict request_name)]

/-- Lines 47–54 of `Market.initialize`, embedded over the list of login
result codes the event thread will deliver, in order: loop emitting the
login request and blocking on `login_result.get()`; on a nonzero code
retry; on code `0` break, emit the account-number request and then the
balance request (with the `GetBalance` token), and return.  `none` means
the provided results are exhausted without a zero code, i.e. the loop is
still blocked retrying.  Returns the unconsumed login results and the
action trace.  (The Python method is named `initialize`.) -/
def init_market_go (request_name : String) : List Int → Option (List Int × List Action)
  | [] => none
  | r :: rs =>
    if r = 0 then
      some (rs, [Action.emit Signal.loginRequest, Action.loginResultGet r,
                 Action.emit Signal.accountNumberRequest,
                 Action.emit (Signal.balanceRequest request_name)])
    else
      (init_market_go request_name rs).map fun p =>
        (p.1, Action.emit Signal.loginRequest :: Action.loginResultGet r :: p.2)

/-- `Market.initialize` over the full shared state: consumes login
results from `login_result` only; every other field of `MarketData` is
untouched (the method creates no correlation slot and performs no
blocking read of either correlation dictionary). -/
def init_market (st : MarketData) (request_name : String) :
    Option (MarketData × List Action) :=
  (init_market_go request_name st.login_result).map fun p =>
    ({ st with login_result := p.1 }, p.2)

/-- The `time.sleep(1)` retry interval (seconds) of the polling loops in
`Market.get_order_info`, `Market.get_price_info` and
`Market.get_ask_bid_info`. -/
def pollIntervalSeconds : Nat := 1

/-- Lines 193–199 of `Market.get_order_info`: the polling loop, embedded
over the successive snapshots of `order_number_to_info` seen at each
iteration (one snapshot per poll tick, ticks `pollIntervalSeconds`
apart).  It returns `some (i, info)` when the first snapshot holding the
order number is the `i`-th one, and `none` when every provided snapshot
lacks it (the loop is still sleeping and retrying). -/
def get_order_info_poll (order_maps : List (Dict OrderInfo)) (order_number : String) :
    Option (Nat × OrderInfo) :=
  match order_maps with
  | [] => none
  | m :: rest =>
    match m order_number with
    | some info => some (0, info)
    | none =>
      match get_order_info_poll rest order_number with
      | some p => some (p.1 + 1, p.2)
      | none => none

/-- One successful iteration of the `Market.get_order_info` loop (lines
193–199): when the order number is present the loop reads the record,
breaks, and returns it.  The source performs no deletion of the entry,
so the shared map is returned unchanged. -/
def get_order_info_once (st : MarketData) (order_number : String) :
    Option (OrderInfo × MarketData) :=
  match st.order_number_to_info order_number with
  | some info => some (info, st)
  | none => none

/-- The staleness threshold of `Market.get_price_info` /
`Market.get_ask_bid_info`: warn when the elapsed time exceeds 10
seconds (`time_delta.total_seconds() > 10`). -/
def stalenessThresholdSeconds : Int := 10

/-- The content of the warning diagnostic logged on lines 267–269 /
308–310: the instrument code, the entry's embedded event time and the
current wall-clock time. -/
structure StaleWarning where
  stock_code : String
  info_time : Int
  cur_time : Int
deriving DecidableEq

/-- Lines 263–269 (and 304–310): compare the entry's embedded event time
with the current time, both reduced to time-of-day, and emit the warning
diagnostic exactly when the difference exceeds the threshold. -/
def stalenessWarning (stock_code : String) (info_time cur_time : Int) :
    Option StaleWarning :=
  if cur_time - info_time > stalenessThresholdSeconds then
    some { stock_code := stock_code, info_time := info_time, cur_time := cur_time }
  else
    none

/-- Lines 256–271 of `Market.get_price_info`, for one poll tick at time
`cur_time`: if the entry is absent the loop sleeps and retries (`none`);
if present, the staleness check runs and the entry is returned
regardless of its outcome. -/
def get_price_info_read (st : MarketData) (stock_code : String) (cur_time : Int) :
    Option (PriceInfo × Option StaleWarning) :=
  match st.price_info stock_code with
  | none => none
  | some info => some (info, stalenessWarning stock_code info.time cur_time)

/-- Lines 297–312 of `Market.get_ask_bid_info`, for one poll tick at
time `cur_time`: same structure as `get_price_info_read` over the
`ask_bid_info` store. -/
def get_ask_bid_info_read (st : MarketData) (stock_code : String) (cur_time : Int) :
    Option (AskBidInfo × Option StaleWarning) :=
  match st.ask_bid_info stock_code with
  | none => none
  | some info => some (info, stalenessWarning stock_code info.time cur_time)

/-- The index ordering predicate used for the insert-before-emit claims:
the action `ins` occurs at a strictly earlier position of the trace than
the action `em`. -/
def insertBeforeEmit (tr : List Action) (ins em : Action) : Prop :=
  ∃ i j : Nat, i < j ∧ tr[i]? = some ins ∧ tr[j]? = some em

/-- A sample order record used by concrete witnesses. -/
def sampleOrderInfo : OrderInfo := [("order_number", "0001"), ("status", "filled")]

/-- A sample shared state used by concrete witnesses: one stored order
record, one streaming price entry and one streaming quote entry for
instrument 005930, a pending login failure followed by a success, and
empty correlation dictionaries. -/
def sampleState : MarketData :=
  { login_result := [1, 0]
    request_name_to_tr_data := Dict.empty
    condition_name_to_result := Dict.empty
    order_number_to_info := Dict.set Dict.empty "0001" sampleOrderInfo
    price_info := Dict.set Dict.empty "005930"
      { time := 32400, price := 70000, openPrice := 69000, high := 70500, low := 68900 }
    ask_bid_info := Dict.set Dict.empty "005930"
      { time := 32400, bids := [(69900, 10)], asks := [(70000, 5)] } }

/-! ### Basic dictionary lemmas -/

@[simp]
theorem Dict.set_same {α : Type} (d : Dict α) (k : String) (v : α) :
    (d.set k v) k = some v := by
  simp [Dict.set]

@[simp]
theorem Dict.del_same {α : Type} (d : Dict α) (k : String) :
    (d.del k) k = none := by
  simp [Dict.del]

theorem Dict.set_other {α : Type} (d : Dict α) (k k' : String) (v : α) (h : k' ≠ k) :
    (d.set k v) k' = d k' := by
  simp [Dict.set, h]

/-- Claim C1: after `get_deposit` issues a fresh token with an empty
single-slot channel and the event thread delivers a value `v` for that
token, the blocking consume returns exactly `v` and the token's entry is
absent from the correlation table afterward (no leak). -/
theorem claim1_get_deposit_roundtrip (st : MarketData) (request_name : String) (v : TrData)
    (hfresh : st.request_name_to_tr_data request_name = none) :
    (get_deposit_request st request_name).request_name_to_tr_data request_name
      = some none ∧
    tr_await_out (deliver (get_deposit_request st request_name) request_name v) request_name
      = AwaitOutcome.value v ∧
    (tr_await_st (deliver (get_deposit_request st request_name) request_name v)
        request_name).request_name_to_tr_data request_name = none := by
  refine ⟨?_, ?_, ?_⟩ <;>
    simp [get_deposit_request, deliver, tr_await_out, tr_await_st, Dict.set, Dict.del]

/-- Claim C1 witness: the spec's scenario — token `GetDeposit-1`,
delivered deposit 5,000,000. -/
theorem claim1_witness :
    sampleState.request_name_to_tr_data (create_request_name "GetDeposit" 1) = none ∧
    ((get_deposit_request sampleState
        (create_request_name "GetDeposit" 1)).request_name_to_tr_data
        (create_request_name "GetDeposit" 1) = some none ∧
     tr_await_out (deliver (get_deposit_request sampleState (create_request_name "GetDeposit" 1))
        (create_request_name "GetDeposit" 1) (TrData.depositV 5000000))
        (create_request_name "GetDeposit" 1)
      = AwaitOutcome.value (TrData.depositV 5000000) ∧
     (tr_await_st (deliver (get_deposit_request sampleState (create_request_name "GetDeposit" 1))
          (create_request_name "GetDeposit" 1) (TrData.depositV 5000000))
          (create_request_name "GetDeposit" 1)).request_name_to_tr_data
          (create_request_name "GetDeposit" 1) = none) :=
  ⟨by decide, claim1_get_deposit_roundtrip sampleState (create_request_name "GetDeposit" 1)
      (TrData.depositV 5000000) (by decide)⟩

/-- Claim C2: once a blocking consume has completed for a token (its
table entry was removed), a second consume of the same token fails with
`invalidToken` — in both correlation dictionaries. -/
theorem claim2_await_twice_invalid :
    (∀ (st : MarketData) (request_name : String) (v : TrData),
       tr_await_out st request_name = AwaitOutcome.value v →
       tr_await_out (tr_await_st st request_name) request_name
         = AwaitOutcome.invalidToken) ∧
    (∀ (st : MarketData) (condition_name : String) (vs : List String),
       cond_await_out st condition_name = AwaitOutcome.value vs →
       cond_await_out (cond_await_st st condition_name) condition_name
         = AwaitOutcome.invalidToken) := by
  constructor
  · intro st request_name v h
    unfold tr_await_out tr_await_st at *
    cases hs : st.request_name_to_tr_data request_name with
    | none => simp [hs] at h
    | some slot =>
      cases slot with
      | none => simp [hs] at h
      | some w => simp [hs, Dict.del]
  · intro st condition_name vs h
    unfold cond_await_out cond_await_st at *
    cases hs : st.condition_name_to_result condition_name with
    | none => simp [hs] at h
    | some slot =>
      cases slot with
      | none => simp [hs] at h
      | some w => simp [hs, Dict.del]

/-- Claim C2 witness: the spec's scenario, run on the state freshly
after the `GetDeposit-1` delivery: the first consume yields 5,000,000
and the second fails with `invalidToken`. -/
theorem claim2_witness :
    tr_await_out (deliver (get_deposit_request sampleState "GetDeposit-1") "GetDeposit-1"
        (TrData.depositV 5000000)) "GetDeposit-1"
      = AwaitOutcome.value (TrData.depositV 5000000) ∧
    tr_await_out (tr_await_st (deliver (get_deposit_request sampleState "GetDeposit-1")
        "GetDeposit-1" (TrData.depositV 5000000)) "GetDeposit-1") "GetDeposit-1"
      = AwaitOutcome.invalidToken :=
  ⟨by decide, claim2_await_twice_invalid.1
      (deliver (get_deposit_request sampleState "GetDeposit-1") "GetDeposit-1"
        (TrData.depositV 5000000)) "GetDeposit-1" (TrData.depositV 5000000) (by decide)⟩

/-- Claim C7: `request_order` performs no defensive validation of the
market-order/limit-order price rule: for every `order_dict` — market
orders with nonzero price and limit orders with zero price included —
it emits the tokenized order request carrying the dictionary unchanged,
and the blocking consume returns whatever order number was delivered. -/
theorem claim7_no_validation (st : MarketData) (od : OrderDict) (request_name : String)
    (order_number : String) :
    Action.emit (Signal.orderRequest od request_name)
      ∈ request_order_request_trace od request_name ∧
    tr_await_out (deliver (request_order_request st od request_name) request_name
        (TrData.orderNumberV order_number)) request_name
      = AwaitOutcome.value (TrData.orderNumberV order_number) := by
  constructor
  · simp [request_order_request_trace]
  · simp [request_order_request, deliver, tr_await_out, Dict.set]

/-- Claim C9: in each tokenized operation the empty single-slot channel
is inserted under its key strictly before the request signal is emitted,
so at the moment the request is dispatched the delivery slot already
exists (and is empty). -/
theorem claim9_slot_before_emit (st : MarketData) (request_name condition_name : String)
    (condition_index : Int) (od : OrderDict) :
    (insertBeforeEmit (get_deposit_request_trace request_name)
       (Action.insertTrSlot request_name)
       (Action.emit (Signal.depositRequest request_name)) ∧
     (get_deposit_request st request_name).request_name_to_tr_data request_name
       = some none) ∧
    (insertBeforeEmit (request_order_request_trace od request_name)
       (Action.insertTrSlot request_name)
       (Action.emit (Signal.orderRequest od request_name)) ∧
     (request_order_request st od request_name).request_name_to_tr_data request_name
       = some none) ∧
    (insertBeforeEmit (get_matching_stocks_request_trace condition_name condition_index)
       (Action.insertCondSlot condition_name)
       (Action.emit (Signal.conditionSearchRequest condition_name condition_index)) ∧
     (get_matching_stocks_request st condition_name).condition_name_to_result
       condition_name = some none) := by
  refine ⟨⟨⟨0, 1, ?_, ?_, ?_⟩, ?_⟩, ⟨⟨0, 1, ?_, ?_, ?_⟩, ?_⟩, ⟨⟨0, 1, ?_, ?_, ?_⟩, ?_⟩⟩ <;>
    simp [get_deposit_request_trace, request_order_request_trace,
      get_matching_stocks_request_trace, get_deposit_request, request_order_request,
      get_matching_stocks_request, Dict.set]

/-- Claim C10: `get_matching_stocks` unconditionally overwrites the slot
keyed by the condition name with a fresh empty single-slot channel
before issuing the search; any value already sitting in an existing slot
for the same condition name is lost. -/
theorem claim10_overwrite (st : MarketData) (condition_name : String) :
    (get_matching_stocks_request st condition_name).condition_name_to_result condition_name
      = some none ∧
    ∀ vs : List String,
      st.condition_name_to_result condition_name = some (some vs) →
      (get_matching_stocks_request st condition_name).condition_name_to_result
        condition_name ≠ some (some vs) := by
  refine ⟨?_, ?_⟩
  · simp [get_matching_stocks_request, Dict.set]
  · intro vs _ hcontra
    simp [get_matching_stocks_request, Dict.set] at hcontra

/-- Claim C10 witness: a pending slot for condition `cond` already holds
a delivered result; a new `get_matching_stocks` call replaces it with an
empty slot, losing the delivered value. -/
theorem claim10_witness :
    (get_matching_stocks_request
        (cond_deliver (get_matching_stocks_request sampleState "cond") "cond" ["005930"])
        "cond").condition_name_to_result "cond" = some none ∧
    (get_matching_stocks_request
        (cond_deliver (get_matching_stocks_request sampleState "cond") "cond" ["005930"])
        "cond").condition_name_to_result "cond" ≠ some (some ["005930"]) :=
  ⟨(claim10_overwrite
      (cond_deliver (get_matching_stocks_request sampleState "cond") "cond" ["005930"])
      "cond").1,
   (claim10_overwrite
      (cond_deliver (get_matching_stocks_request sampleState "cond") "cond" ["005930"])
      "cond").2 ["005930"] (by decide)⟩

/-- Claim C3: for every streaming entry present in the state,
`get_price_info` (and `get_ask_bid_info`) returns that entry
unconditionally — staleness never blocks or fails the read — and the
warning diagnostic, which names the instrument, the embedded event time
and the current time, is emitted exactly when the elapsed time between
the entry's event time and the current time-of-day exceeds 10 seconds
strictly. -/
theorem claim3_staleness (st : MarketData) (stock_code : String) (cur_time : Int)
    (pi : PriceInfo) (abi : AskBidInfo)
    (hp : st.price_info stock_code = some pi)
    (ha : st.ask_bid_info stock_code = some abi) :
    get_price_info_read st stock_code cur_time
      = some (pi, stalenessWarning stock_code pi.time cur_time) ∧
    ((stalenessWarning stock_code pi.time cur_time).isSome
      ↔ cur_time - pi.time > 10) ∧
    (cur_time - pi.time > 10 →
      stalenessWarning stock_code pi.time cur_time
        = some { stock_code := stock_code, info_time := pi.time, cur_time := cur_time }) ∧
    (cur_time - pi.time ≤ 10 → stalenessWarning stock_code pi.time cur_time = none) ∧
    get_ask_bid_info_read st stock_code cur_time
      = some (abi, stalenessWarning stock_code abi.time cur_time) ∧
    ((stalenessWarning stock_code abi.time cur_time).isSome
      ↔ cur_time - abi.time > 10) := by
  refine ⟨?_, ?_, ?_, ?_, ?_, ?_⟩
  · simp [get_price_info_read, hp]
  · simp only [stalenessWarning, stalenessThresholdSeconds]
    split <;> simp_all
  · intro h
    simp [stalenessWarning, stalenessThresholdSeconds, h]
  · intro h
    simp [stalenessWarning, stalenessThresholdSeconds]
    omega
  · simp [get_ask_bid_info_read, ha]
  · simp only [stalenessWarning, stalenessThresholdSeconds]
    split <;> simp_all

/-- Claim C3 witness: the spec's scenario — instrument 005930 with event
time 09:00:00 read at 09:00:15 (stale, warning emitted) and the same
entry read at 09:00:05 (no warning). -/
theorem claim3_witness :
    (sampleState.price_info "005930" = some
      { time := 32400, price := 70000, openPrice := 69000, high := 70500, low := 68900 } ∧
     sampleState.ask_bid_info "005930" = some
      { time := 32400, bids := [(69900, 10)], asks := [(70000, 5)] }) ∧
    get_price_info_read sampleState "005930" 32415 = some
      ({ time := 32400, price := 70000, openPrice := 69000, high := 70500, low := 68900 },
       some { stock_code := "005930", info_time := 32400, cur_time := 32415 }) ∧
    get_price_info_read sampleState "005930" 32405 = some
      ({ time := 32400, price := 70000, openPrice := 69000, high := 70500, low := 68900 },
       none) := by
  refine ⟨⟨by decide, by decide⟩, ?_, ?_⟩
  · have h := (claim3_staleness sampleState "005930" 32415
      { time := 32400, price := 70000, openPrice := 69000, high := 70500, low := 68900 }
      { time := 32400, bids := [(69900, 10)], asks := [(70000, 5)] }
      (by decide) (by decide)).1
    rw [h]
    decide
  · have h := (claim3_staleness sampleState "005930" 32405
      { time := 32400, price := 70000, openPrice := 69000, high := 70500, low := 68900 }
      { time := 32400, bids := [(69900, 10)], asks := [(70000, 5)] }
      (by decide) (by decide)).1
    rw [h]
    decide

/-- Claim C5, counterexample: `get_order_info` successfully returns the
stored order record for order number 0001, yet the record is still
present in the order map afterward — it is not destroyed on first
successful read, contradicting the claim. -/
theorem claim5_counterexample :
    (get_order_info_once sampleState "0001").map (fun p => p.1) = some sampleOrderInfo ∧
    (get_order_info_once sampleState "0001").map
        (fun p => p.2.order_number_to_info "0001") = some (some sampleOrderInfo) := by
  constructor <;> decide

/-- Claim C5 as amended: correlation-table rows are destroyed on first
successful read — after the blocking consume of `get_deposit` /
`request_order` / `get_matching_stocks` returns a value, the slot is
removed from its table — but `get_order_info` does NOT remove the order
record it returns from the order map: the record is still stored
unchanged afterward. -/
theorem claim5_amended_lifecycle :
    (∀ (st : MarketData) (request_name : String) (v : TrData),
       tr_await_out st request_name = AwaitOutcome.value v →
       (tr_await_st st request_name).request_name_to_tr_data request_name = none) ∧
    (∀ (st : MarketData) (condition_name : String) (vs : List String),
       cond_await_out st condition_name = AwaitOutcome.value vs →
       (cond_await_st st condition_name).condition_name_to_result condition_name = none) ∧
    (∀ (st st' : MarketData) (order_number : String) (info : OrderInfo),
       get_order_info_once st order_number = some (info, st') →
       st'.order_number_to_info order_number = some info) := by
  refine ⟨?_, ?_, ?_⟩
  · intro st request_name v h
    unfold tr_await_out tr_await_st at *
    cases hs : st.request_name_to_tr_data request_name with
    | none => simp [hs] at h
    | some slot =>
      cases slot with
      | none => simp [hs] at h
      | some w => simp [hs, Dict.del]
  · intro st condition_name vs h
    unfold cond_await_out cond_await_st at *
    cases hs : st.condition_name_to_result condition_name with
    | none => simp [hs] at h
    | some slot =>
      cases slot with
      | none => simp [hs] at h
      | some w => simp [hs, Dict.del]
  · intro st st' order_number info h
    unfold get_order_info_once at h
    cases hs : st.order_number_to_info order_number with
    | none => simp [hs] at h
    | some info0 =>
      simp [hs] at h
      obtain ⟨h1, h2⟩ := h
      subst h1
      subst h2
      exact hs

/-- Claim C5 (amended) witness: a completed deposit consume leaves no
slot behind, while a completed order-info read leaves the record in
place. -/
theorem claim5_witness :
    (tr_await_st (deliver (get_deposit_request sampleState "GetDeposit-1") "GetDeposit-1"
        (TrData.depositV 5000000)) "GetDeposit-1").request_name_to_tr_data "GetDeposit-1"
      = none ∧
    sampleState.order_number_to_info "0001" = some sampleOrderInfo :=
  ⟨claim5_amended_lifecycle.1
      (deliver (get_deposit_request sampleState "GetDeposit-1") "GetDeposit-1"
        (TrData.depositV 5000000)) "GetDeposit-1" (TrData.depositV 5000000) (by decide),
   claim5_amended_lifecycle.2.2 sampleState sampleState "0001" sampleOrderInfo rfl⟩

/-- Claim C6: `get_order_info` never returns while the order id is
absent from the shared order map — over the successive per-tick
snapshots (ticks `pollIntervalSeconds` = 1 second apart, with no
internal timeout: every all-absent prefix leaves it still polling), it
returns exactly the record stored in the first snapshot that contains
the id, and at every earlier snapshot the id was absent. -/
theorem claim6_order_poll (order_maps : List (Dict OrderInfo)) (order_number : String) :
    pollIntervalSeconds = 1 ∧
    (get_order_info_poll order_maps order_number = none
      ↔ ∀ m ∈ order_maps, m order_number = none) ∧
    (∀ (i : Nat) (info : OrderInfo),
       get_order_info_poll order_maps order_number = some (i, info) →
       (∃ m, order_maps[i]? = some m ∧ m order_number = some info) ∧
       ∀ j : Nat, j < i → ∀ m, order_maps[j]? = some m → m order_number = none) := by
  refine ⟨rfl, ?_, ?_⟩
  · induction order_maps with
    | nil => simp [get_order_info_poll]
    | cons m rest ih =>
      simp only [get_order_info_poll]
      cases hm : m order_number with
      | some info => simp [hm]
      | none =>
        cases hr : get_order_info_poll rest order_number with
        | none =>
          simp only [hr]
          constructor
          · intro _ m' hm'
            rcases List.mem_cons.mp hm' with h | h
            · rw [h]; exact hm
            · exact (ih.mp hr) m' h
          · intro _; trivial
        | some p =>
          simp only [hr]
          constructor
          · intro h
            exact absurd h (by simp)
          · intro h
            have hnone : get_order_info_poll rest order_number = none := ih.mpr (by
              intro m' hm'
              exact h m' (List.mem_cons_of_mem _ hm'))
            rw [hr] at hnone
            exact Option.noConfusion hnone
  · induction order_maps with
    | nil => intro i info h; simp [get_order_info_poll] at h
    | cons m rest ih =>
      intro i info h
      simp only [get_order_info_poll] at h
      cases hm : m order_number with
      | some info0 =>
        rw [hm] at h
        simp at h
        obtain ⟨h1, h2⟩ := h
        subst h1
        constructor
        · exact ⟨m, by simp, by rw [hm, h2]⟩
        · intro j hj
          omega
      | none =>
        rw [hm] at h
        cases hr : get_order_info_poll rest order_number with
        | none => rw [hr] at h; simp at h
        | some p =>
          rw [hr] at h
          simp at h
          obtain ⟨h1, h2⟩ := h
          obtain ⟨hfirst, hbefore⟩ := ih p.1 p.2 (by rw [hr])
          subst h2
          constructor
          · obtain ⟨m', hm1, hm2⟩ := hfirst
            refine ⟨m', ?_, hm2⟩
            rw [← h1]
            simpa using hm1
          · intro j hj m' hjm
            cases j with
            | zero =>
              simp at hjm
              rw [← hjm]
              exact hm
            | succ j' =>
              simp at hjm
              exact hbefore j' (by omega) m' hjm

/-- Claim C6 witness: with the order absent in the first two snapshots
and present in the third, the poll returns the stored record at index 2
after two sleeps, and an all-absent snapshot list leaves it polling. -/
theorem claim6_witness :
    pollIntervalSeconds = 1 ∧
    get_order_info_poll [Dict.empty, Dict.empty, Dict.set Dict.empty "0001" sampleOrderInfo]
        "0001" = some (2, sampleOrderInfo) ∧
    get_order_info_poll [Dict.empty, Dict.empty] "0001" = none :=
  ⟨(claim6_order_poll [] "x").1,
   by decide,
   (claim6_order_poll [Dict.empty, Dict.empty] "0001").2.1.mpr (by
      intro m hm
      simp at hm
      subst hm
      rfl)⟩

/-- Helper: when a zero result code is among the delivered login
results, the login loop succeeds; its trace is a login-only prefix
(one login emission per consumed result, i.e. first-zero-index + 1 of
them) followed by exactly the account-number and balance emissions. -/
theorem init_go_spec (request_name : String) (rs : List Int) (h : 0 ∈ rs) :
    ∃ rest pre,
      init_market_go request_name rs =
        some (rest, pre ++ [Action.emit Signal.accountNumberRequest,
                            Action.emit (Signal.balanceRequest request_name)]) ∧
      pre.count (Action.emit Signal.loginRequest)
        = rs.findIdx (fun r => r == 0) + 1 ∧
      (∀ a ∈ pre, a = Action.emit Signal.loginRequest
        ∨ ∃ r, a = Action.loginResultGet r) := by
  induction rs with
  | nil => cases h
  | cons r rs ih =>
    by_cases hr : r = 0
    · subst hr
      refine ⟨rs, [Action.emit Signal.loginRequest, Action.loginResultGet 0], ?_, ?_, ?_⟩
      · simp [init_market_go]
      · simp [List.findIdx_cons, List.count_cons]
      · intro a ha
        simp at ha
        rcases ha with h1 | h1
        · exact Or.inl h1
        · exact Or.inr ⟨0, h1⟩
    · have h0 : 0 ∈ rs := by
        rcases List.mem_cons.mp h with h1 | h1
        · exact absurd h1.symm hr
        · exact h1
      obtain ⟨rest, pre, hgo, hcount, hshape⟩ := ih h0
      refine ⟨rest, Action.emit Signal.loginRequest :: Action.loginResultGet r :: pre,
        ?_, ?_, ?_⟩
      · simp [init_market_go, hr, hgo]
      · simp only [List.count_cons, List.findIdx_cons, hcount]
        have hbeq : (r == (0 : Int)) = false := by
          simp [hr]
        rw [hbeq]
        simp
      · intro a ha
        rcases List.mem_cons.mp ha with h1 | h1
        · exact Or.inl h1
        rcases List.mem_cons.mp h1 with h2 | h2
        · exact Or.inr ⟨r, h2⟩
        · exact hshape a h2

/-- Claim C4: `initialize` repeatedly issues the login request, blocking
on each result, until the result code equals zero — a failed login is
never surfaced, it only causes a retry, so the trace holds exactly
first-zero-index + 1 login emissions — and only after the zero result
does it issue the account-number request and then the balance request,
each exactly once, at the very end of the trace. -/
theorem claim4_login_retry (rs : List Int) (request_name : String) (h : 0 ∈ rs) :
    ∃ rest tr,
      init_market_go request_name rs = some (rest, tr) ∧
      tr.count (Action.emit Signal.loginRequest)
        = rs.findIdx (fun r => r == 0) + 1 ∧
      tr.count (Action.emit Signal.accountNumberRequest) = 1 ∧
      tr.count (Action.emit (Signal.balanceRequest request_name)) = 1 ∧
      ∃ pre, tr = pre ++ [Action.emit Signal.accountNumberRequest,
                          Action.emit (Signal.balanceRequest request_name)] ∧
        ∀ a ∈ pre, a = Action.emit Signal.loginRequest
          ∨ ∃ r, a = Action.loginResultGet r := by
  obtain ⟨rest, pre, hgo, hcount, hshape⟩ := init_go_spec request_name rs h
  have hacct : Action.emit Signal.accountNumberRequest ∉ pre := by
    intro hmem
    rcases hshape _ hmem with h1 | ⟨r, h1⟩ <;> simp at h1
  have hbal : Action.emit (Signal.balanceRequest request_name) ∉ pre := by
    intro hmem
    rcases hshape _ hmem with h1 | ⟨r, h1⟩ <;> simp at h1
  refine ⟨rest, _, hgo, ?_, ?_, ?_, pre, rfl, hshape⟩
  · rw [List.count_append, hcount]
    simp [List.count_cons]
  · rw [List.count_append, List.count_eq_zero.mpr hacct]
    simp [List.count_cons]
  · rw [List.count_append, List.count_eq_zero.mpr hbal]
    simp [List.count_cons]

/-- Claim C4 witness: login results 1 (failure) then 0 (success): the
loop retries once, then succeeds and issues the account-number and
balance requests. -/
theorem claim4_witness :
    (0 : Int) ∈ [(1 : Int), 0] ∧
    (∃ rest tr,
      init_market_go "GetBalance-1" [(1 : Int), 0] = some (rest, tr) ∧
      tr.count (Action.emit Signal.loginRequest)
        = [(1 : Int), 0].findIdx (fun r => r == 0) + 1 ∧
      tr.count (Action.emit Signal.accountNumberRequest) = 1 ∧
      tr.count (Action.emit (Signal.balanceRequest "GetBalance-1")) = 1 ∧
      ∃ pre, tr = pre ++ [Action.emit Signal.accountNumberRequest,
                          Action.emit (Signal.balanceRequest "GetBalance-1")] ∧
        ∀ a ∈ pre, a = Action.emit Signal.loginRequest
          ∨ ∃ r, a = Action.loginResultGet r) :=
  ⟨by decide, claim4_login_retry [(1 : Int), 0] "GetBalance-1" (by decide)⟩

/-- Helper: every action in a successful `initialize` trace is either a
signal emission or the blocking read of the login-result queue — no
correlation slot is created and no correlation slot is read — and the
trace ends with the account-number and balance emissions. -/
theorem init_go_actions (request_name : String) (rs : List Int) :
    ∀ (rest : List Int) (tr : List Action),
    init_market_go request_name rs = some (rest, tr) →
    (∀ a ∈ tr, (∃ s, a = Action.emit s) ∨ ∃ r, a = Action.loginResultGet r) ∧
    ∃ pre, tr = pre ++ [Action.emit Signal.accountNumberRequest,
                        Action.emit (Signal.balanceRequest request_name)] := by
  induction rs with
  | nil => intro rest tr h; simp [init_market_go] at h
  | cons r rs ih =>
    intro rest tr h
    simp only [init_market_go] at h
    by_cases hr : r = 0
    · subst hr
      rw [if_pos rfl] at h
      simp at h
      obtain ⟨h1, h2⟩ := h
      subst h2
      constructor
      · intro a ha
        simp at ha
        rcases ha with h3 | h3 | h3 | h3
        · exact Or.inl ⟨_, h3⟩
        · exact Or.inr ⟨0, h3⟩
        · exact Or.inl ⟨_, h3⟩
        · exact Or.inl ⟨_, h3⟩
      · exact ⟨[Action.emit Signal.loginRequest, Action.loginResultGet 0], rfl⟩
    · rw [if_neg hr] at h
      simp only [Option.map_eq_some'] at h
      obtain ⟨p, hp, heq⟩ := h
      have htr : tr = Action.emit Signal.loginRequest :: Action.loginResultGet r :: p.2 := by
        have := congrArg Prod.snd heq
        simpa using this.symm
      obtain ⟨hclass, pre, hpre⟩ := ih p.1 p.2 (by rw [hp])
      subst htr
      constructor
      · intro a ha
        rcases List.mem_cons.mp ha with h1 | h1
        · exact Or.inl ⟨_, h1⟩
        rcases List.mem_cons.mp h1 with h2 | h2
        · exact Or.inr ⟨r, h2⟩
        · exact hclass a h2
      · exact ⟨Action.emit Signal.loginRequest :: Action.loginResultGet r :: pre,
          by simp [hpre]⟩

/-- Claim C8: `initialize` does not wait for the account-number or
balance responses: it creates no rendezvous slot and performs no
blocking read in either correlation dictionary (both are returned
untouched), and its trace simply ends with the two request emissions —
so account and balance data may still be absent when it returns. -/
theorem claim8_init_no_wait (st : MarketData) (request_name : String)
    (st' : MarketData) (tr : List Action)
    (h : init_market st request_name = some (st', tr)) :
    (∀ k, st'.request_name_to_tr_data k = st.request_name_to_tr_data k) ∧
    (∀ k, st'.condition_name_to_result k = st.condition_name_to_result k) ∧
    (∀ k, Action.insertTrSlot k ∉ tr ∧ Action.trSlotGet k ∉ tr ∧
          Action.insertCondSlot k ∉ tr ∧ Action.condSlotGet k ∉ tr) ∧
    ∃ pre, tr = pre ++ [Action.emit Signal.accountNumberRequest,
                        Action.emit (Signal.balanceRequest request_name)] := by
  unfold init_market at h
  simp only [Option.map_eq_some'] at h
  obtain ⟨p, hp, heq⟩ := h
  have hst : st' = { st with login_result := p.1 } := by
    have := congrArg Prod.fst heq
    simpa using this.symm
  have htr : tr = p.2 := by
    have := congrArg Prod.snd heq
    simpa using this.symm
  obtain ⟨hclass, pre, hpre⟩ := init_go_actions request_name st.login_result p.1 p.2 hp
  subst hst
  subst htr
  refine ⟨fun k => rfl, fun k => rfl, ?_, ⟨pre, hpre⟩⟩
  intro k
  refine ⟨?_, ?_, ?_, ?_⟩ <;>
    · intro hmem
      rcases hclass _ hmem with ⟨s, h1⟩ | ⟨r, h1⟩ <;> simp at h1

/-- Claim C8 witness: `initialize` on the sample state (login results 1
then 0) leaves both correlation dictionaries untouched — the
`GetDeposit-1` and `cond` keys are unaffected — its trace contains no
slot creation and no slot read, and it ends with the account-number and
balance emissions. -/
theorem claim8_witness :
    init_market sampleState "GetBalance-1" = some (
      { sampleState with login_result := [] },
      [Action.emit Signal.loginRequest, Action.loginResultGet 1,
       Action.emit Signal.loginRequest, Action.loginResultGet 0,
       Action.emit Signal.accountNumberRequest,
       Action.emit (Signal.balanceRequest "GetBalance-1")]) ∧
    ({ sampleState with login_result := ([] : List Int) }).request_name_to_tr_data
      "GetDeposit-1" = sampleState.request_name_to_tr_data "GetDeposit-1" ∧
    ({ sampleState with login_result := ([] : List Int) }).condition_name_to_result
      "cond" = sampleState.condition_name_to_result "cond" ∧
    (Action.insertTrSlot "GetDeposit-1"
      ∉ [Action.emit Signal.loginRequest, Action.loginResultGet 1,
         Action.emit Signal.loginRequest, Action.loginResultGet 0,
         Action.emit Signal.accountNumberRequest,
         Action.emit (Signal.balanceRequest "GetBalance-1")]) ∧
    ∃ pre,
      [Action.emit Signal.loginRequest, Action.loginResultGet 1,
       Action.emit Signal.loginRequest, Action.loginResultGet 0,
       Action.emit Signal.accountNumberRequest,
       Action.emit (Signal.balanceRequest "GetBalance-1")]
        = pre ++ [Action.emit Signal.accountNumberRequest,
                  Action.emit (Signal.balanceRequest "GetBalance-1")] := by
  have h : init_market sampleState "GetBalance-1" = some (
      { sampleState with login_result := [] },
      [Action.emit Signal.loginRequest, Action.loginResultGet 1,
       Action.emit Signal.loginRequest, Action.loginResultGet 0,
       Action.emit Signal.accountNumberRequest,
       Action.emit (Signal.balanceRequest "GetBalance-1")]) := rfl
  have hc := claim8_init_no_wait sampleState "GetBalance-1"
    { sampleState with login_result := [] }
    [Action.emit Signal.loginRequest, Action.loginResultGet 1,
     Action.emit Signal.loginRequest, Action.loginResultGet 0,
     Action.emit Signal.accountNumberRequest,
     Action.emit (Signal.balanceRequest "GetBalance-1")] h
  exact ⟨h, hc.1 "GetDeposit-1", hc.2.1 "cond", (hc.2.2.1 "GetDeposit-1").1, hc.2.2.2⟩

end Kiwoom
